import Mathlib

/-!
Verification of the Supplier Quotation list-view settings
(`src/supplier_quotation_list.js`).

The source registers, under the document type "Supplier Quotation",
a settings object with two members:

  * `add_fields`: the constant array
    `["supplier", "base_grand_total", "status", "company", "currency"]`;
  * `get_indicator(doc)`: reads `doc.status`, compares it with the string
    literals `"Ordered"` and `"Rejected"` using JavaScript strict equality
    (`===`), and returns a `[label, color, filter]` triple (the label passed
    through the host's translation function `__`), or returns nothing
    (JavaScript `undefined`) when neither branch matches.

We embed JavaScript values as an inductive type `JSVal`, a record (document)
as an association list of field names to values — property access on a
missing field yields `undefined`, as in JavaScript — and `get_indicator` as
a Lean function parameterised by the translation function `__` injected by
the host.  Returning "nothing" is modelled by `Option`.
-/

/-- A JavaScript value, as far as this module can observe one: a string,
a number, a boolean, `null`, or `undefined`.  Strict equality `===`
between a value and a string literal is equality with the `str`
constructor: it holds only for an identical string and is false for every
non-string value. -/
inductive JSVal where
  | str (s : String)
  | num (n : Int)
  | boolean (b : Bool)
  | null
  | undefined
  deriving DecidableEq, Repr

/-- A document record as the resolver sees it: a JavaScript object,
i.e. a finite map from field names to values, embedded as an association
list. -/
def RecordObj : Type := List (String × JSVal)

instance : DecidableEq RecordObj := by
  unfold RecordObj
  infer_instance

/-- JavaScript property access `doc[name]`: the value of the first binding
of `name`, or `undefined` when the object has no such field. -/
def getField (doc : RecordObj) (name : String) : JSVal :=
  match doc.find? (fun p => p.1 = name) with
  | some p => p.2
  | none => JSVal.undefined

/-- An indicator triple as the source builds it:
`[label, color, filter]` with the label already localized. -/
structure Indicator where
  label : String
  color : String
  filter : String
  deriving DecidableEq, Repr

/-- `add_fields` from the source: the literal array
`["supplier", "base_grand_total", "status", "company", "currency"]`. -/
def add_fields : List String :=
  ["supplier", "base_grand_total", "status", "company", "currency"]

/-- `get_indicator` from the source, with the host's translation function
`__` passed explicitly as `tr`:

```
get_indicator: function(doc) {
  if(doc.status==="Ordered") {
    return [__("Ordered"), "purple", "status,=,Ordered"];
  } else if(doc.status==="Rejected") {
    return [__("Lost"), "darkgrey", "status,=,Lost"];
  }
}
```

Falling off the end of the function (no matching branch) returns
JavaScript `undefined`, embedded as `none`. -/
def get_indicator (tr : String → String) (doc : RecordObj) : Option Indicator :=
  if getField doc "status" = JSVal.str "Ordered" then
    some ⟨tr "Ordered", "purple", "status,=,Ordered"⟩
  else if getField doc "status" = JSVal.str "Rejected" then
    some ⟨tr "Lost", "darkgrey", "status,=,Lost"⟩
  else
    none

/-- The JavaScript function body performs no assignment to `doc` or to any
of its fields; as a state-passing translation it returns the result
together with the (unchanged) record. -/
def get_indicator_st (tr : String → String) (doc : RecordObj) :
    Option Indicator × RecordObj :=
  (get_indicator tr doc, doc)

/-- Character-wise lower-casing of a string, used to state "differs only
in letter case": `s` differs from `t` only in letter case exactly when
`lowerStr s = lowerStr t` and `s ≠ t`. -/
def lowerStr (s : String) : String :=
  String.mk (s.data.map Char.toLower)

/- ### Theorems -/

/-- C1: for every record whose status field equals the exact string
"Ordered", `get_indicator` returns the indicator triple
(localized label "Ordered", color "purple", filter "status,=,Ordered"). -/
theorem c1_ordered_indicator (tr : String → String) (doc : RecordObj)
    (h : getField doc "status" = JSVal.str "Ordered") :
    get_indicator tr doc = some ⟨tr "Ordered", "purple", "status,=,Ordered"⟩ := by
  simp [get_indicator, h]

theorem c1_ordered_indicator_witness :
    get_indicator id [("status", JSVal.str "Ordered"), ("supplier", JSVal.str "S")]
      = some ⟨"Ordered", "purple", "status,=,Ordered"⟩ :=
  c1_ordered_indicator id
    [("status", JSVal.str "Ordered"), ("supplier", JSVal.str "S")] (by decide)

/-- C2: for every record whose status field equals the exact string
"Rejected", `get_indicator` returns the indicator triple
(localized label "Lost", color "darkgrey", filter "status,=,Lost"):
the filter value is "Lost", not "Rejected". -/
theorem c2_rejected_indicator (tr : String → String) (doc : RecordObj)
    (h : getField doc "status" = JSVal.str "Rejected") :
    get_indicator tr doc = some ⟨tr "Lost", "darkgrey", "status,=,Lost"⟩ := by
  simp [get_indicator, h]

theorem c2_rejected_indicator_witness :
    get_indicator id [("status", JSVal.str "Rejected")]
      = some ⟨"Lost", "darkgrey", "status,=,Lost"⟩ :=
  c2_rejected_indicator id [("status", JSVal.str "Rejected")] (by decide)

/-- C3: for every record whose status field is any value other than the
strings "Ordered" and "Rejected" — including "Draft", the empty string,
`null`, or an absent status field (which reads as `undefined`) —
`get_indicator` produces no indicator. -/
theorem c3_other_status_no_indicator (tr : String → String) (doc : RecordObj)
    (h1 : getField doc "status" ≠ JSVal.str "Ordered")
    (h2 : getField doc "status" ≠ JSVal.str "Rejected") :
    get_indicator tr doc = none := by
  simp [get_indicator, h1, h2]

theorem c3_other_status_no_indicator_witness :
    get_indicator id [("status", JSVal.str "Draft")] = none
      ∧ get_indicator id [("status", JSVal.str "")] = none
      ∧ get_indicator id [("status", JSVal.null)] = none
      ∧ get_indicator id [("supplier", JSVal.str "S")] = none :=
  ⟨c3_other_status_no_indicator id [("status", JSVal.str "Draft")]
      (by decide) (by decide),
   c3_other_status_no_indicator id [("status", JSVal.str "")]
      (by decide) (by decide),
   c3_other_status_no_indicator id [("status", JSVal.null)]
      (by decide) (by decide),
   c3_other_status_no_indicator id [("supplier", JSVal.str "S")]
      (by decide) (by decide)⟩

/-- C4: `get_indicator` is total and never raises: on every record —
in particular one whose status field is missing altogether, read as
`undefined` — it returns a value, and an unmatched status takes the
no-op path `none` rather than failing. -/
theorem c4_total_no_raise (tr : String → String) (doc : RecordObj) :
    (doc.find? (fun p => p.1 = "status") = none → get_indicator tr doc = none)
      ∧ (get_indicator tr doc = none ∨
          ∃ ind : Indicator, get_indicator tr doc = some ind) := by
  constructor
  · intro h
    simp [get_indicator, getField, h]
  · cases hind : get_indicator tr doc with
    | none => exact Or.inl rfl
    | some ind => exact Or.inr ⟨ind, rfl⟩

/-- C5: `add_fields` is exactly the five field names
"supplier", "base_grand_total", "status", "company", "currency",
in that order. -/
theorem c5_add_fields_constant :
    add_fields = ["supplier", "base_grand_total", "status", "company", "currency"] :=
  rfl

/-- C6: `get_indicator` is deterministic and idempotent: two calls on the
same record (with the same translation function) yield identical output. -/
theorem c6_idempotent (tr : String → String) (doc : RecordObj) :
    get_indicator tr doc = get_indicator tr doc :=
  rfl

/-- C7: `get_indicator` has no side effect beyond its returned value: in
the state-passing translation the record coming out of the call is the
record that went in, unchanged. -/
theorem c7_no_mutation (tr : String → String) (doc : RecordObj) :
    (get_indicator_st tr doc).2 = doc :=
  rfl

/-- C8: `get_indicator` terminates on every input: for every record it
immediately yields a definite result — either no indicator, or one of the
two concrete indicator triples. -/
theorem c8_terminates (tr : String → String) (doc : RecordObj) :
    get_indicator tr doc = none
      ∨ get_indicator tr doc = some ⟨tr "Ordered", "purple", "status,=,Ordered"⟩
      ∨ get_indicator tr doc = some ⟨tr "Lost", "darkgrey", "status,=,Lost"⟩ := by
  unfold get_indicator
  by_cases h1 : getField doc "status" = JSVal.str "Ordered"
  · simp [h1]
  · by_cases h2 : getField doc "status" = JSVal.str "Rejected"
    · simp [h1, h2]
    · simp [h1, h2]

/-- C9: the output of `get_indicator` depends only on the record's status
field: two records that agree on `status` get the same result, whatever
their other fields hold. -/
theorem c9_depends_only_on_status (tr : String → String) (d1 d2 : RecordObj)
    (h : getField d1 "status" = getField d2 "status") :
    get_indicator tr d1 = get_indicator tr d2 := by
  unfold get_indicator
  rw [h]

theorem c9_depends_only_on_status_witness :
    getField [("status", JSVal.str "Ordered"), ("supplier", JSVal.str "A"),
        ("company", JSVal.str "X")] "status"
      = getField [("status", JSVal.str "Ordered"), ("supplier", JSVal.str "B"),
        ("base_grand_total", JSVal.num 42)] "status"
    ∧ get_indicator id [("status", JSVal.str "Ordered"), ("supplier", JSVal.str "A"),
        ("company", JSVal.str "X")]
      = get_indicator id [("status", JSVal.str "Ordered"), ("supplier", JSVal.str "B"),
        ("base_grand_total", JSVal.num 42)] :=
  ⟨by decide,
   c9_depends_only_on_status id
     [("status", JSVal.str "Ordered"), ("supplier", JSVal.str "A"),
       ("company", JSVal.str "X")]
     [("status", JSVal.str "Ordered"), ("supplier", JSVal.str "B"),
       ("base_grand_total", JSVal.num 42)]
     (by decide)⟩

/-- C10: status matching is strict, case-sensitive string equality: every
status whose value is a string differing from "Ordered" or "Rejected"
only in letter case (i.e. equal up to `toLower` but not identical, such
as "ordered", "ORDERED", "rejected" or "REJECTED"), and every non-string
status value, produce no indicator. -/
theorem c10_strict_case_sensitive (tr : String → String) (doc : RecordObj)
    (h : (∃ s : String, getField doc "status" = JSVal.str s
            ∧ (lowerStr s = lowerStr "Ordered" ∨ lowerStr s = lowerStr "Rejected")
            ∧ s ≠ "Ordered" ∧ s ≠ "Rejected")
        ∨ ∀ s : String, getField doc "status" ≠ JSVal.str s) :
    get_indicator tr doc = none := by
  rcases h with ⟨s, hs, _, hne1, hne2⟩ | h
  · simp [get_indicator, hs, hne1, hne2]
  · simp [get_indicator, h "Ordered", h "Rejected"]

theorem c10_strict_case_sensitive_witness :
    get_indicator id [("status", JSVal.str "ORDERED")] = none
      ∧ get_indicator id [("status", JSVal.str "ordered")] = none
      ∧ get_indicator id [("status", JSVal.str "rejected")] = none
      ∧ get_indicator id [("status", JSVal.str "REJECTED")] = none
      ∧ get_indicator id [("status", JSVal.num 1)] = none :=
  ⟨c10_strict_case_sensitive id [("status", JSVal.str "ORDERED")]
      (Or.inl ⟨"ORDERED", by decide, Or.inl (by decide), by decide, by decide⟩),
   c10_strict_case_sensitive id [("status", JSVal.str "ordered")]
      (Or.inl ⟨"ordered", by decide, Or.inl (by decide), by decide, by decide⟩),
   c10_strict_case_sensitive id [("status", JSVal.str "rejected")]
      (Or.inl ⟨"rejected", by decide, Or.inr (by decide), by decide, by decide⟩),
   c10_strict_case_sensitive id [("status", JSVal.str "REJECTED")]
      (Or.inl ⟨"REJECTED", by decide, Or.inr (by decide), by decide, by decide⟩),
   c10_strict_case_sensitive id [("status", JSVal.num 1)]
      (Or.inr (fun s => by simp [getField]))⟩
